import Mathlib

/-!
Verification of the detray excerpt: helix-cylinder intersector, cartesian2
coordinate frame, detector consistency checker and io type-id lookup.

The embedding works over exact rational scalars.  Parts of the repository
that are referenced but not contained in the sources (the helix trajectory
class, the transform and detector containers, the default intersection
record, the type registry and the io id enumerations) are modelled from the
specification, as marked in the corresponding doc comments.
-/

namespace Detray

/-- Absolute value on the rational scalars, mirroring std.abs. -/
def qabs (x : ℚ) : ℚ := if x < 0 then -x else x

/-- A 3D real-valued coordinate tuple (point or vector). -/
structure Vec3 where
  x : ℚ
  y : ℚ
  z : ℚ
  deriving DecidableEq

/-- A 2D real-valued coordinate tuple (local point). -/
structure Vec2 where
  x : ℚ
  y : ℚ
  deriving DecidableEq

/-- Componentwise difference of two 3D vectors. -/
def Vec3.sub (a b : Vec3) : Vec3 := ⟨a.x - b.x, a.y - b.y, a.z - b.z⟩

/-- Euclidean dot product of two 3D vectors. -/
def Vec3.dot (a b : Vec3) : ℚ := a.x * b.x + a.y * b.y + a.z * b.z

/-- Cross product of two 3D vectors. -/
def Vec3.cross (a b : Vec3) : Vec3 :=
  ⟨a.y * b.z - a.z * b.y, a.z * b.x - a.x * b.z, a.x * b.y - a.y * b.x⟩

/-- The zero 3D vector. -/
def Vec3.zero : Vec3 := ⟨0, 0, 0⟩

/-- The transverse magnitude sqrt(x*x + y*y) of a vector, mirroring
getter.perp; the square-root backend of the algebra plugin is passed in as
a function parameter. -/
def getterPerp (sqrtFn : ℚ → ℚ) (v : Vec3) : ℚ := sqrtFn (v.x * v.x + v.y * v.y)

/-- The Euclidean magnitude of a vector, mirroring getter.norm; the
square-root backend is a function parameter. -/
def getterNorm (sqrtFn : ℚ → ℚ) (v : Vec3) : ℚ := sqrtFn (Vec3.dot v v)

/-- Modelled from the spec: the helix trajectory class is not part of the
sources; the spec describes it as a trajectory model that parametrizes
position and direction along a curved path by arc length and is consumed,
not redefined, by the intersector.  It is therefore embedded as the pair of
functions the intersector consumes. -/
structure HelixTraj where
  pos : ℚ → Vec3
  dir : ℚ → Vec3

/-- Modelled from the spec: the transform class is not part of the sources.
It exposes point_to_local, point_to_global and its underlying matrix, of
which the intersector reads column 2 (the local z axis) and column 3 (the
translation). -/
structure Transform3 where
  pointToLocal : Vec3 → Vec3
  pointToGlobal : Vec3 → Vec3
  col2 : Vec3
  col3 : Vec3

/-- Inside / outside / boundary status of an intersection.  Modelled from
the spec: the status enumeration itself is not part of the sources. -/
inductive IStatus
  | e_inside
  | e_outside
  | e_edge
  | e_missed
  deriving DecidableEq

/-- Direction of the trajectory relative to the surface at the
intersection. -/
inductive IDirection
  | e_along
  | e_opposite
  deriving DecidableEq

/-- The invalid-index sentinel (dindex_invalid). -/
def dindexInvalid : ℕ := 4294967295

/-- An intersection record: path length, global point, local point, status,
direction and the volume link of the mask. -/
structure Intersection where
  path : ℚ
  p3 : Vec3
  p2 : Vec2
  status : IStatus
  direction : IDirection
  link : ℕ
  deriving DecidableEq

/-- Modelled from the spec: the default-constructed (invalid / absent)
intersection record returned on every non-convergent or degenerate path.
The record type is not part of the sources; concrete sentinel field values
stand in for its default member initializers. -/
def Intersection.invalid : Intersection :=
  ⟨0, Vec3.zero, ⟨0, 0⟩, IStatus.e_missed, IDirection.e_along, dindexInvalid⟩

/-- A cylinder-shaped mask: the radius is its first boundary value; it
carries a volume link and, as external collaborator contracts, the
is_inside boundary test and the global-to-local conversion of its local
frame (both consumed as black boxes by the intersector, matching the spec
section on external interfaces). -/
structure CylinderMask where
  r : ℚ
  volumeLink : ℕ
  isInside : Vec3 → ℚ → IStatus
  frameG2L : Transform3 → Vec3 → Vec3 → Vec2

/-- Maximum number of Newton iterations (max_n_tries). -/
def maxNTries : ℕ := 100

/-- Convergence tolerance of the Newton iteration (tol = 1e-3). -/
def newtonTol : ℚ := 1/1000

/-- The vector crp = (h.pos(s) - sc) x sz of the Newton iteration. -/
def newtonCrp (h : HelixTraj) (sc sz : Vec3) (s : ℚ) : Vec3 :=
  Vec3.cross (Vec3.sub (h.pos s) sc) sz

/-- The derivative denominator 2 * (crp . (h.dir(s) x sz)). -/
def newtonDenom (h : HelixTraj) (sc sz : Vec3) (s : ℚ) : ℚ :=
  2 * Vec3.dot (newtonCrp h sc sz s) (Vec3.cross (h.dir s) sz)

/-- The objective f(s) = crp . crp - r * r. -/
def newtonF (h : HelixTraj) (sc sz : Vec3) (r s : ℚ) : ℚ :=
  Vec3.dot (newtonCrp h sc sz s) (newtonCrp h sc sz s) - r * r

/-- Result of the Newton while loop: either the degenerate-derivative early
return, or the loop left with final s, previous s and iteration count. -/
inductive LoopResult
  | zeroDenom
  | finished (s sPrev : ℚ) (nTries : ℕ)
  deriving DecidableEq

/-- The Newton while loop of helix_cylinder_intersector.operator(), run
with explicit fuel (called with fuel = maxNTries, under which the fuel can
never run out before the loop condition n < maxNTries fails):
while (abs(s - s_prev) > tol and n_tries < max_n_tries) do step. -/
def newtonGo (h : HelixTraj) (sc sz : Vec3) (r : ℚ) :
    ℕ → ℚ → ℚ → ℕ → LoopResult
  | 0, s, sPrev, nTries => .finished s sPrev nTries
  | fuel+1, s, sPrev, nTries =>
    if qabs (s - sPrev) > newtonTol ∧ nTries < maxNTries then
      if newtonDenom h sc sz s = 0 then .zeroDenom
      else newtonGo h sc sz r fuel
        (s - newtonF h sc sz r s / newtonDenom h sc sz s) s (nTries + 1)
    else .finished s sPrev nTries

/-- The initial guess s0 = r * perp(h.dir(tol)). -/
def newtonSeed (sqrtFn : ℚ → ℚ) (h : HelixTraj) (mask : CylinderMask) : ℚ :=
  mask.r * getterPerp sqrtFn (h.dir newtonTol)

/-- The full Newton iteration of the intersector: cylinder axis and centre
are columns 2 and 3 of the placement, the loop starts from s0 with
s_prev = s0 - 0.1 and n_tries = 0. -/
def helixCylinderRun (sqrtFn : ℚ → ℚ) (h : HelixTraj) (mask : CylinderMask)
    (trf : Transform3) : LoopResult :=
  newtonGo h trf.col3 trf.col2 mask.r maxNTries
    (newtonSeed sqrtFn h mask) (newtonSeed sqrtFn h mask - 1/10) 0

/-- Construction of the intersection record from the converged helix
parameter s: path is the norm of the global point, the local point comes
from the local frame of the mask, the status from the is_inside test on
the local 3D point, the direction from the sign of p3 . dir, and the link
is the volume link of the mask. -/
def buildIntersection (sqrtFn : ℚ → ℚ) (h : HelixTraj) (mask : CylinderMask)
    (trf : Transform3) (maskTolerance s : ℚ) : Intersection :=
  ⟨getterNorm sqrtFn (h.pos s),
   h.pos s,
   mask.frameG2L trf (h.pos s) (h.dir s),
   mask.isInside (trf.pointToLocal (h.pos s)) maskTolerance,
   if Vec3.dot (h.pos s) (h.dir s) > 0 then IDirection.e_along
   else IDirection.e_opposite,
   mask.volumeLink⟩

/-- helix_cylinder_intersector.operator(): runs the Newton loop; on a zero
denominator or when the loop left with n_tries == max_n_tries the default
(invalid) two-slot output is returned, otherwise slot 0 is filled from the
converged s and slot 1 keeps its default value. -/
def helix_cylinder_intersector (sqrtFn : ℚ → ℚ) (h : HelixTraj)
    (mask : CylinderMask) (trf : Transform3) (maskTolerance : ℚ) :
    Intersection × Intersection :=
  match helixCylinderRun sqrtFn h mask trf with
  | .zeroDenom => (Intersection.invalid, Intersection.invalid)
  | .finished s _ nTries =>
    if nTries = maxNTries then (Intersection.invalid, Intersection.invalid)
    else (buildIntersection sqrtFn h mask trf maskTolerance s,
          Intersection.invalid)

/-!  The cartesian2 coordinate frame (cartesian2.hpp). -/

/-- cartesian2.operator() on a 2D point: the identity. -/
def cartesian2_proj2 (p : Vec2) : Vec2 := p

/-- cartesian2.operator() on a local 3D point: keep the first two
coordinates. -/
def cartesian2_proj3 (local3 : Vec3) : Vec2 := ⟨local3.x, local3.y⟩

/-- cartesian2.global_to_local: apply point_to_local, then project; the
direction argument is ignored. -/
def cartesian2_global_to_local (trf : Transform3) (p : Vec3)
    (_d : Vec3) : Vec2 :=
  cartesian2_proj3 (trf.pointToLocal p)

/-- cartesian2.local_to_global: embed the local 2D point with third
coordinate 0, then apply point_to_global; mask and direction are
ignored. -/
def cartesian2_local_to_global {μ : Type} (trf : Transform3) (_mask : μ)
    (p : Vec2) (_d : Vec3) : Vec3 :=
  trf.pointToGlobal ⟨p.x, p.y, 0⟩

/-!  The detector consistency checker (consistency_checker.hpp).

Modelled from the spec where the detector type is concerned: the detector
class itself is not part of the sources.  Per the spec it exposes volumes,
surfaces, transform, mask, material and accelerator stores (each reporting
per-collection emptiness) and a volume search grid; surfaces carry an
index, an owning volume, a mask volume link, a portal flag, a self check
and an optional material; volumes carry an index, a self check,
acceleration data structures holding surface descriptors and an optional
material.  The self checks and material validity are outcomes of external
contracts and are embedded as boolean fields. -/

/-- A surface descriptor of the detector (external collaborator contract;
see the module doc comment above). -/
structure Surf where
  index : ℕ
  volume : ℕ
  volumeLink : ℕ
  isPortal : Bool
  selfCheckOk : Bool
  hasMaterial : Bool
  materialOk : Bool
  deriving DecidableEq

/-- Default surface descriptor used for out-of-range lookups. -/
def dfltSurf : Surf := ⟨dindexInvalid, dindexInvalid, dindexInvalid,
  false, false, false, false⟩

/-- A volume descriptor of the detector (external collaborator contract;
each inner list is one acceleration data structure holding surface
descriptors). -/
structure Volume where
  index : ℕ
  selfCheckOk : Bool
  accel : List (List Surf)
  hasMaterial : Bool
  materialOk : Bool
  deriving DecidableEq

/-- Default volume descriptor used for out-of-range lookups. -/
def dfltVolume : Volume := ⟨dindexInvalid, false, [], false, false⟩

/-- All surfaces referenced by the acceleration data structures of a
volume, in visiting order. -/
def Volume.allAccelSurfaces (v : Volume) : List Surf :=
  v.accel.foldr (fun c acc => c ++ acc) []

/-- The detector interface consumed by the checker (external collaborator
contract): stores are represented by their emptiness observations, the
volume finder by its entries. -/
structure Detector where
  volumes : List Volume
  surfaces : List Surf
  transformStoreEmpty : Bool
  maskSubEmpty : List Bool
  materialSubEmpty : List Bool
  accelSubEmpty : List Bool
  volumeFinderEntries : List ℕ
  deriving DecidableEq

/-- Modelled from the spec: the portal range of the detector is drawn from
the surface collection (the portal-presence check scans the surface
collection; the comment in check_empty notes that this range may also
contain non-portal surfaces, hence the explicit is_portal test). -/
def Detector.portals (det : Detector) : List Surf := det.surfaces

/-- The flat surface lookup of the detector by barcode position. -/
def Detector.lookup (det : Detector) (i : ℕ) : Surf :=
  det.surfaces.getD i dfltSurf

/-- The volume of the detector at a given index. -/
def Detector.volumeAt (det : Detector) (i : ℕ) : Volume :=
  det.volumes.getD i dfltVolume

/-- mask_store().all_empty(): every mask collection is empty. -/
def maskStoreAllEmpty (det : Detector) : Bool := det.maskSubEmpty.all id

/-- material_store().all_empty(): every material collection is empty. -/
def materialStoreAllEmpty (det : Detector) : Bool :=
  det.materialSubEmpty.all id

/-- The fault raised by a failed consistency check, carrying the data that
the diagnostic message identifies. -/
inductive Fault
  | noVolumes
  | noSurfaces
  | noTransforms
  | noMasks
  | noPortals
  | surfaceSelfCheck (sf : Surf)
  | surfaceVolumeMismatch (volIdx : ℕ) (sf : Surf)
  | badVolumeLink (link : ℕ)
  | lookupMismatch (sf sfLkp : Surf)
  | volumeSelfCheck (volIdx : ℕ)
  | volumeIndexMismatch (volIdx idx : ℕ)
  | badVolumeMaterial (volIdx : ℕ)
  | surfaceSelfCheckAt (idx : ℕ)
  | surfaceIndexMismatch (sf : Surf) (idx : ℕ)
  | searchVolumeMismatch (sf : Surf)
  | notRegistered (sf : Surf)
  | badSurfaceMaterial (sf : Surf)
  deriving DecidableEq

/-- Whether the diagnostic of a fault identifies the given surface. -/
def Fault.mentionsSurf : Fault → Surf → Bool
  | .surfaceSelfCheck s, sf => s = sf
  | .surfaceVolumeMismatch _ s, sf => s = sf
  | .lookupMismatch s t, sf => s = sf ∨ t = sf
  | .surfaceIndexMismatch s _, sf => s = sf
  | .surfaceSelfCheckAt i, sf => i = sf.index
  | .searchVolumeMismatch s, sf => s = sf
  | .notRegistered s, sf => s = sf
  | .badSurfaceMaterial s, sf => s = sf
  | _, _ => false

/-- A warning printed by check_empty (modelled as data instead of a stream,
preserving emission order). -/
inductive Warning
  | noMaterial
  | emptyMaterialColl (i : ℕ)
  | emptyMaskColl (i : ℕ)
  | emptyAccelColl (i : ℕ)
  | noVolumeFinderEntries
  deriving DecidableEq

/-- detray.views.enumerate: pair every element with its position, starting
from a given offset. -/
def enumFrom {α : Type} : ℕ → List α → List (ℕ × α)
  | _, [] => []
  | i, a :: l => (i, a) :: enumFrom (i + 1) l

/-- report_empty: one warning for every empty sub-collection of a store. -/
def report_empty (flags : List Bool) (mk : ℕ → Warning) : List Warning :=
  (enumFrom 0 flags).filterMap (fun p => if p.2 then some (mk p.1) else none)

/-- The find_portals lambda of check_empty: false on an empty portal range,
otherwise true exactly when some surface of the range is a portal. -/
def findPortals (det : Detector) : Bool :=
  if det.portals.isEmpty then false
  else det.portals.any (fun sf => sf.isPortal)

/-- The find_volumes lambda of check_empty: some entry of the volume finder
is a valid (non-sentinel) volume index. -/
def findVolumes (entries : List ℕ) : Bool :=
  entries.any (fun v => !(v == dindexInvalid))

/-- The material / verbose / volume-finder warnings of check_empty, in
emission order. -/
def checkEmptyWarnings (det : Detector) (verbose : Bool) : List Warning :=
  (if materialStoreAllEmpty det then [Warning.noMaterial]
   else if verbose then report_empty det.materialSubEmpty Warning.emptyMaterialColl
   else [])
  ++ (if verbose then
        report_empty det.maskSubEmpty Warning.emptyMaskColl
        ++ report_empty det.accelSubEmpty Warning.emptyAccelColl
      else [])
  ++ (if findVolumes det.volumeFinderEntries then []
      else [Warning.noVolumeFinderEntries])

/-- check_empty: the fatal structural presence checks in program order,
then the warnings. -/
def check_empty (det : Detector) (verbose : Bool) :
    Except Fault (List Warning) :=
  if det.volumes.isEmpty then .error .noVolumes
  else if det.surfaces.isEmpty then .error .noSurfaces
  else if det.transformStoreEmpty then .error .noTransforms
  else if maskStoreAllEmpty det then .error .noMasks
  else if !(findPortals det) then .error .noPortals
  else .ok (checkEmptyWarnings det verbose)

/-- The first surface_checker call operator: self check, owning volume
index, mask volume link range and agreement with the flat surface lookup,
in program order. -/
def surface_checker (det : Detector) (volIdx : ℕ) (sf : Surf) :
    Except Fault Unit :=
  if !sf.selfCheckOk then .error (.surfaceSelfCheck sf)
  else if sf.volume ≠ volIdx then .error (.surfaceVolumeMismatch volIdx sf)
  else if sf.volumeLink ≠ dindexInvalid ∧
      det.volumes.length ≤ sf.volumeLink then
    .error (.badVolumeLink sf.volumeLink)
  else if det.lookup sf.index ≠ sf then
    .error (.lookupMismatch sf (det.lookup sf.index))
  else .ok ()

/-- Visiting a list of surfaces with the first surface_checker call
operator, aborting at the first fault. -/
def checkSurfList (det : Detector) (volIdx : ℕ) : List Surf →
    Except Fault Unit
  | [] => .ok ()
  | sf :: rest =>
    match surface_checker det volIdx sf with
    | .error e => .error e
    | .ok _ => checkSurfList det volIdx rest

/-- The second surface_checker call operator folded over the acceleration
surfaces of a volume: faults when a visited surface carries the wrong
volume index, otherwise remembers whether the searched surface was seen
(the visitor does not exit early). -/
def searchSurfaces (check : Surf) : List Surf → Bool → Except Fault Bool
  | [], success => .ok success
  | ref :: rest, success =>
    if ref.volume ≠ check.volume then .error (.searchVolumeMismatch check)
    else searchSurfaces check rest (success || (ref == check))

/-- The per-volume portion of check_consistency: volume self check, stored
index against position, the surface visitor over the acceleration data
structures, and the volume material check if material is declared. -/
def volumePass (det : Detector) (idx : ℕ) (vol : Volume) :
    Except Fault Unit :=
  if !vol.selfCheckOk then .error (.volumeSelfCheck vol.index)
  else if vol.index ≠ idx then .error (.volumeIndexMismatch vol.index idx)
  else
    match checkSurfList det vol.index vol.allAccelSurfaces with
    | .error e => .error e
    | .ok _ =>
      if vol.hasMaterial ∧ !vol.materialOk then
        .error (.badVolumeMaterial vol.index)
      else .ok ()

/-- The per-surface portion of check_consistency over the flat surface
lookup: self check, stored index against position, the reverse membership
search in the acceleration structures of the owning volume, and the
surface material check if material is declared. -/
def surfacePass (det : Detector) (idx : ℕ) (sf : Surf) :
    Except Fault Unit :=
  if !sf.selfCheckOk then .error (.surfaceSelfCheckAt idx)
  else if sf.index ≠ idx then .error (.surfaceIndexMismatch sf idx)
  else
    match searchSurfaces sf
        ((det.volumeAt sf.volume).allAccelSurfaces) false with
    | .error e => .error e
    | .ok true =>
      if sf.hasMaterial ∧ !sf.materialOk then
        .error (.badSurfaceMaterial sf)
      else .ok ()
    | .ok false => .error (.notRegistered sf)

/-- Running an enumerated pass, aborting at the first fault. -/
def runChecks {α : Type} (f : ℕ → α → Except Fault Unit) :
    List (ℕ × α) → Except Fault Unit
  | [] => .ok ()
  | (i, a) :: rest =>
    match f i a with
    | .error e => .error e
    | .ok _ => runChecks f rest

/-- check_consistency: check_empty, then the enumerated per-volume pass,
then the enumerated per-surface pass; success returns true. -/
def check_consistency (det : Detector) (verbose : Bool) :
    Except Fault Bool :=
  match check_empty det verbose with
  | .error e => .error e
  | .ok _ =>
    match runChecks (fun idx vol => volumePass det idx vol)
        (enumFrom 0 det.volumes) with
    | .error e => .error e
    | .ok _ =>
      match runChecks (fun idx sf => surfacePass det idx sf)
          (enumFrom 0 det.surfaces) with
      | .error e => .error e
      | .ok _ => .ok true

/-!  The io type-id lookup (type_info.hpp).

Modelled from the spec: the type_registry template and the io id
enumerations are not part of the sources.  Per the spec the registry is a
compile-time bidirectional mapping between a closed set of geometric types
and small integer ids used by serialization; it is embedded as a
positional list of registered types, with the id enumerations laid out in
registry order followed by the unknown entry. -/

/-- The closed set of mask shape types appearing in the shape registry of
type_info.hpp, together with one shape type that is not registered. -/
inductive ShapeType
  | annulus2D
  | cuboid3D
  | cylinder2D
  | cylinder3D
  | concentric_cylinder2D
  | rectangle2D
  | ring2D
  | trapezoid2D
  | wire_cell
  | straw_tube
  | single3D0
  | single3D1
  | single3D2
  | unmasked
  deriving DecidableEq, Fintype

/-- The io shape_id enumeration. -/
inductive ShapeId
  | annulus2
  | cuboid3
  | cylinder2
  | cylinder3
  | portal_cylinder2
  | rectangle2
  | ring2
  | trapezoid2
  | cell_wire
  | straw_wire
  | single1
  | single2
  | single3
  | unknown
  deriving DecidableEq

/-- The shape registry of the shape get_id overload, in source order. -/
def shape_type_registry : List ShapeType :=
  [.annulus2D, .cuboid3D, .cylinder2D, .cylinder3D, .concentric_cylinder2D,
   .rectangle2D, .ring2D, .trapezoid2D, .wire_cell, .straw_tube,
   .single3D0, .single3D1, .single3D2]

/-- The registry position to shape_id mapping (to_id). -/
def shapeIdOf : ℕ → ShapeId
  | 0 => .annulus2
  | 1 => .cuboid3
  | 2 => .cylinder2
  | 3 => .cylinder3
  | 4 => .portal_cylinder2
  | 5 => .rectangle2
  | 6 => .ring2
  | 7 => .trapezoid2
  | 8 => .cell_wire
  | 9 => .straw_wire
  | 10 => .single1
  | 11 => .single2
  | 12 => .single3
  | _ => .unknown

/-- get_id for shapes: the registry id when the shape is registered, the
unknown id otherwise. -/
def get_shape_id (t : ShapeType) : ShapeId :=
  match shape_type_registry.findIdx? (fun x => x == t) with
  | some i => shapeIdOf i
  | none => ShapeId.unknown

/-- The closed set of grid local-frame types appearing in the frame
registry of the surface-grid get_id overload, together with one frame type
that is not registered. -/
inductive FrameType
  | cartesian2
  | cartesian3
  | polar2
  | concentric_cylindrical2
  | cylindrical2
  | cylindrical3
  | line2
  deriving DecidableEq, Fintype

/-- The io accel_id enumeration (the first entry is the non-grid brute
force type). -/
inductive AccelId
  | brute_force
  | cartesian2_grid
  | cartesian3_grid
  | polar2_grid
  | concentric_cylinder2_grid
  | cylinder2_grid
  | cylinder3_grid
  | unknown
  deriving DecidableEq

/-- The frame registry of the surface-grid get_id overload, in source
order; the none entry is the void slot reserved for brute force. -/
def grid_frame_registry : List (Option FrameType) :=
  [none, some .cartesian2, some .cartesian3, some .polar2,
   some .concentric_cylindrical2, some .cylindrical2, some .cylindrical3]

/-- The registry position to accel_id mapping (to_id). -/
def accelIdOf : ℕ → AccelId
  | 0 => .brute_force
  | 1 => .cartesian2_grid
  | 2 => .cartesian3_grid
  | 3 => .polar2_grid
  | 4 => .concentric_cylinder2_grid
  | 5 => .cylinder2_grid
  | 6 => .cylinder3_grid
  | _ => .unknown

/-- get_id for surface grids: the registry id when the local frame is
registered, the unknown id otherwise. -/
def get_accel_id (t : FrameType) : AccelId :=
  match grid_frame_registry.findIdx? (fun x => x == some t) with
  | some i => accelIdOf i
  | none => AccelId.unknown

/-!  Concrete instances used by witnesses and counterexamples. -/

/-- The fatal structural presence conditions of check_empty all passing. -/
def passesStructural (det : Detector) : Prop :=
  det.volumes.isEmpty = false ∧ det.surfaces.isEmpty = false ∧
  det.transformStoreEmpty = false ∧ maskStoreAllEmpty det = false ∧
  findPortals det = true

/-- A placement with identity point maps, z axis (0,0,1) and centre at the
origin. -/
def idTrf : Transform3 := ⟨fun v => v, fun v => v, ⟨0, 0, 1⟩, ⟨0, 0, 0⟩⟩

/-- A square-root backend that agrees with the exact square root at every
argument evaluated in the witness runs (1 and 4). -/
def wSqrt (q : ℚ) : ℚ := if q = 4 then 2 else if q = 1 then 1 else 0

/-- A straight trajectory along the x axis through the origin. -/
def wHelix : HelixTraj := ⟨fun s => ⟨s, 0, 0⟩, fun _ => ⟨1, 0, 0⟩⟩

/-- A cylinder mask of radius 2 used by the witness runs. -/
def wMask : CylinderMask :=
  ⟨2, 7, fun _ _ => IStatus.e_inside, fun _ p _ => ⟨p.x, p.y⟩⟩

/-- The Newton step size driving the counterexample trajectory: 1/100
everywhere except at s = 7401/100, where it is 1/2000. -/
def cexStep (s : ℚ) : ℚ := if s = 7401/100 then 1/2000 else 1/100

/-- A trajectory on which the Newton update at s equals cexStep s against
the counterexample cylinder: the iteration moves by 1/100 for 99 steps and
converges (step 1/2000, below tol) exactly on the 100th iteration. -/
def cexHelix : HelixTraj :=
  ⟨fun _ => ⟨2, 0, 0⟩, fun s => ⟨3 / (4 * cexStep s), 0, 0⟩⟩

/-- A cylinder mask of radius 1 used by the counterexample run. -/
def cexMask : CylinderMask :=
  ⟨1, 3, fun _ _ => IStatus.e_inside, fun _ p _ => ⟨p.x, p.y⟩⟩

/-- A square-root backend that agrees with the exact square root at the
only argument evaluated in the counterexample run (5625). -/
def cexSqrt (q : ℚ) : ℚ := if q = 5625 then 75 else 0

/-- A trajectory exactly parallel to the z axis at transverse distance 2
from it. -/
def parHelix : HelixTraj := ⟨fun s => ⟨2, 0, s⟩, fun _ => ⟨0, 0, 1⟩⟩

/-- A portal surface with passing self check, correctly registered at
index 0 of volume 0. -/
def goodSurf : Surf := ⟨0, 0, dindexInvalid, true, true, false, true⟩

/-- A volume holding goodSurf in its only acceleration data structure. -/
def goodVol : Volume := ⟨0, true, [[goodSurf]], false, true⟩

/-- A minimal consistent detector with an entirely empty material store. -/
def goodDet : Detector :=
  ⟨[goodVol], [goodSurf], false, [false], [true], [false], [0]⟩

/-- A detector with no volumes but a non-empty surface collection and an
empty transform store. -/
def emptyVolDet : Detector :=
  ⟨[], [goodSurf], true, [false], [true], [false], [0]⟩

/-- A surface that is not a portal. -/
def nonPortalSurf : Surf := ⟨0, 0, dindexInvalid, false, true, false, true⟩

/-- A detector with no volumes and no portal anywhere in its surface
collection. -/
def cexDet5 : Detector :=
  ⟨[], [nonPortalSurf], false, [false], [true], [false], [0]⟩

/-- A volume whose self check fails and whose acceleration data structures
are empty. -/
def cexVol6 : Volume := ⟨0, false, [], false, true⟩

/-- A surface of volume 0 that is absent from every acceleration data
structure of that volume. -/
def cexSf6 : Surf := ⟨0, 0, dindexInvalid, true, true, false, true⟩

/-- A detector holding the orphaned surface cexSf6 while its volume also
fails its self check: the checker faults on the volume first. -/
def cexDet6 : Detector :=
  ⟨[cexVol6], [cexSf6], false, [false], [true], [false], [0]⟩

/-- A volume with a passing self check and one empty acceleration data
structure. -/
def orphVol : Volume := ⟨0, true, [[]], false, true⟩

/-- An orphaned surface of volume 0 whose own checks pass. -/
def orphSf : Surf := ⟨0, 0, dindexInvalid, true, true, false, true⟩

/-- A detector whose only defect is the orphaned surface orphSf. -/
def orphDet : Detector :=
  ⟨[orphVol], [orphSf], false, [false], [true], [false], [0]⟩

/-!  Helper lemmas about the Newton iteration. -/

/-- Unfolding of the Newton loop at zero fuel. -/
theorem newtonGo_zero (h : HelixTraj) (sc sz : Vec3) (r s sp : ℚ) (n : ℕ) :
    newtonGo h sc sz r 0 s sp n = .finished s sp n := rfl

/-- One-step unfolding of the Newton loop. -/
theorem newtonGo_succ (h : HelixTraj) (sc sz : Vec3) (r : ℚ) (fuel : ℕ)
    (s sp : ℚ) (n : ℕ) :
    newtonGo h sc sz r (fuel + 1) s sp n =
    if qabs (s - sp) > newtonTol ∧ n < maxNTries then
      if newtonDenom h sc sz s = 0 then .zeroDenom
      else newtonGo h sc sz r fuel
        (s - newtonF h sc sz r s / newtonDenom h sc sz s) s (n + 1)
    else .finished s sp n := rfl

/-- The dot product with the zero vector vanishes. -/
theorem Vec3.dot_zero_right (v : Vec3) : Vec3.dot v Vec3.zero = 0 := by
  simp [Vec3.dot, Vec3.zero]

/-- When the Newton loop leaves with an iteration count below the cap (and
enough fuel to have reached the cap), the convergence criterion held at
exit. -/
theorem newtonGo_finished_conv (h : HelixTraj) (sc sz : Vec3) (r : ℚ) :
    ∀ (fuel : ℕ) (s sp : ℚ) (n : ℕ) (s2 sp2 : ℚ) (n2 : ℕ),
      maxNTries ≤ fuel + n →
      newtonGo h sc sz r fuel s sp n = .finished s2 sp2 n2 →
      n2 < maxNTries → qabs (s2 - sp2) ≤ newtonTol := by
  intro fuel
  induction fuel with
  | zero =>
    intro s sp n s2 sp2 n2 hle heq hn2
    rw [newtonGo_zero] at heq
    injection heq with e1 e2 e3
    subst e1; subst e2; subst e3
    omega
  | succ fuel ih =>
    intro s sp n s2 sp2 n2 hle heq hn2
    rw [newtonGo_succ] at heq
    by_cases hc : qabs (s - sp) > newtonTol ∧ n < maxNTries
    · rw [if_pos hc] at heq
      by_cases hd : newtonDenom h sc sz s = 0
      · rw [if_pos hd] at heq
        exact LoopResult.noConfusion heq
      · rw [if_neg hd] at heq
        exact ih _ _ _ _ _ _ (by omega) heq hn2
    · rw [if_neg hc] at heq
      injection heq with e1 e2 e3
      subst e1; subst e2; subst e3
      exact not_lt.mp (fun hgt => hc ⟨hgt, hn2⟩)

/-- On zero-denominator abort the two-slot output keeps its defaults. -/
theorem intersector_zeroDenom (sqrtFn : ℚ → ℚ) (h : HelixTraj)
    (mask : CylinderMask) (trf : Transform3) (mtol : ℚ)
    (hrun : helixCylinderRun sqrtFn h mask trf = .zeroDenom) :
    helix_cylinder_intersector sqrtFn h mask trf mtol =
      (Intersection.invalid, Intersection.invalid) := by
  unfold helix_cylinder_intersector
  simp only [hrun]

/-- When the loop leaves with the iteration count at the cap, the two-slot
output keeps its defaults. -/
theorem intersector_finished_max (sqrtFn : ℚ → ℚ) (h : HelixTraj)
    (mask : CylinderMask) (trf : Transform3) (mtol : ℚ) (s sp : ℚ)
    (hrun : helixCylinderRun sqrtFn h mask trf = .finished s sp maxNTries) :
    helix_cylinder_intersector sqrtFn h mask trf mtol =
      (Intersection.invalid, Intersection.invalid) := by
  unfold helix_cylinder_intersector
  simp [hrun]

/-- When the loop leaves below the cap, slot 0 is built from the converged
parameter and slot 1 keeps its default. -/
theorem intersector_finished_lt (sqrtFn : ℚ → ℚ) (h : HelixTraj)
    (mask : CylinderMask) (trf : Transform3) (mtol : ℚ) (s sp : ℚ) (n : ℕ)
    (hrun : helixCylinderRun sqrtFn h mask trf = .finished s sp n)
    (hn : n ≠ maxNTries) :
    helix_cylinder_intersector sqrtFn h mask trf mtol =
      (buildIntersection sqrtFn h mask trf mtol s, Intersection.invalid) := by
  unfold helix_cylinder_intersector
  simp only [hrun]
  rw [if_neg hn]

/-- A trajectory everywhere parallel to the cylinder axis drives the first
Newton iteration into the zero-denominator abort. -/
theorem parallel_zeroDenom (sqrtFn : ℚ → ℚ) (h : HelixTraj)
    (mask : CylinderMask) (trf : Transform3)
    (hpar : ∀ s, Vec3.cross (h.dir s) trf.col2 = Vec3.zero) :
    helixCylinderRun sqrtFn h mask trf = .zeroDenom := by
  unfold helixCylinderRun
  rw [show maxNTries = 99 + 1 from by norm_num [maxNTries], newtonGo_succ]
  have hc : qabs (newtonSeed sqrtFn h mask -
      (newtonSeed sqrtFn h mask - 1/10)) > newtonTol ∧ 0 < maxNTries := by
    constructor
    · rw [show newtonSeed sqrtFn h mask -
          (newtonSeed sqrtFn h mask - 1/10) = 1/10 from by ring]
      norm_num [qabs, newtonTol]
    · norm_num [maxNTries]
  rw [if_pos hc]
  have hd : newtonDenom h trf.col3 trf.col2
      (newtonSeed sqrtFn h mask) = 0 := by
    unfold newtonDenom
    rw [hpar]
    rw [Vec3.dot_zero_right]
    ring
  rw [if_pos hd]

/-- The witness run: the straight trajectory through the origin starts at
the exact root s0 = 2 of the radius-2 cylinder, so the first update leaves
s unchanged and the loop converges after one iteration. -/
theorem wRun : helixCylinderRun wSqrt wHelix wMask idTrf =
    .finished 2 2 1 := by
  have hseed : newtonSeed wSqrt wHelix wMask = 2 := by
    norm_num [newtonSeed, getterPerp, wSqrt, wHelix, wMask, newtonTol]
  unfold helixCylinderRun
  rw [hseed]
  simp only [idTrf, wMask]
  rw [show maxNTries = 99 + 1 from by norm_num [maxNTries], newtonGo_succ]
  rw [if_pos (⟨by norm_num [qabs, newtonTol], by norm_num [maxNTries]⟩ :
    qabs ((2:ℚ) - (2 - 1/10)) > newtonTol ∧ 0 < maxNTries)]
  have hd : newtonDenom wHelix ⟨0,0,0⟩ ⟨0,0,1⟩ 2 = 4 := by
    norm_num [newtonDenom, newtonCrp, wHelix, Vec3.cross, Vec3.sub, Vec3.dot]
  have hf : newtonF wHelix ⟨0,0,0⟩ ⟨0,0,1⟩ 2 2 = 0 := by
    norm_num [newtonF, newtonCrp, wHelix, Vec3.cross, Vec3.sub, Vec3.dot]
  rw [hd, hf, if_neg (by norm_num : (4:ℚ) ≠ 0)]
  rw [show (2:ℚ) - 0 / 4 = 2 from by norm_num]
  rw [show (99:ℕ) = 98 + 1 from by norm_num, newtonGo_succ]
  rw [if_neg (by norm_num [qabs, newtonTol] :
    ¬(qabs ((2:ℚ) - 2) > newtonTol ∧ 0 + 1 < maxNTries))]

/-- The counterexample loop: starting from s = 75 - k/100 with fuel
100 - k at iteration count k, the iteration steps by 1/100 until k = 99
and by 1/2000 on the final, 100th iteration. -/
theorem cexLoopRun : ∀ (j k : ℕ) (sp : ℚ), k + j = 99 →
    qabs ((75 - (k:ℚ)/100) - sp) > newtonTol →
    newtonGo cexHelix ⟨0,0,0⟩ ⟨0,0,1⟩ 1 (100 - k) (75 - (k:ℚ)/100) sp k =
      .finished (148019/2000) (7401/100) 100 := by
  intro j
  induction j with
  | zero =>
    intro k sp hk hsp
    have hk99 : k = 99 := by omega
    subst hk99
    have hs : (75 : ℚ) - ((99:ℕ):ℚ)/100 = 7401/100 := by push_cast; norm_num
    rw [hs] at hsp ⊢
    rw [show (100 - 99 : ℕ) = 0 + 1 from by norm_num, newtonGo_succ]
    rw [if_pos ⟨hsp, by norm_num [maxNTries]⟩]
    have hd : newtonDenom cexHelix ⟨0,0,0⟩ ⟨0,0,1⟩ (7401/100) = 6000 := by
      norm_num [newtonDenom, newtonCrp, cexHelix, cexStep,
        Vec3.cross, Vec3.sub, Vec3.dot]
    have hf : newtonF cexHelix ⟨0,0,0⟩ ⟨0,0,1⟩ 1 (7401/100) = 3 := by
      norm_num [newtonF, newtonCrp, cexHelix, Vec3.cross, Vec3.sub, Vec3.dot]
    rw [hd, hf, if_neg (by norm_num : (6000:ℚ) ≠ 0)]
    rw [newtonGo_zero]
    norm_num
  | succ j ih =>
    intro k sp hk hsp
    have hfuel : (100 - k : ℕ) = (99 - k) + 1 := by omega
    rw [hfuel, newtonGo_succ]
    rw [if_pos ⟨hsp, by simp only [maxNTries]; omega⟩]
    have hne : (75 : ℚ) - (k:ℚ)/100 ≠ 7401/100 := by
      intro he
      have h99 : (k:ℚ) = 99 := by linarith
      have hk99 : k = 99 := by exact_mod_cast h99
      omega
    have hd : newtonDenom cexHelix ⟨0,0,0⟩ ⟨0,0,1⟩ (75 - (k:ℚ)/100) = 300 := by
      norm_num [newtonDenom, newtonCrp, cexHelix, cexStep, hne,
        Vec3.cross, Vec3.sub, Vec3.dot]
    have hf : newtonF cexHelix ⟨0,0,0⟩ ⟨0,0,1⟩ 1 (75 - (k:ℚ)/100) = 3 := by
      norm_num [newtonF, newtonCrp, cexHelix, Vec3.cross, Vec3.sub, Vec3.dot]
    rw [hd, hf, if_neg (by norm_num : (300:ℚ) ≠ 0)]
    rw [show (75 : ℚ) - (k:ℚ)/100 - 3/300 = 75 - ((k+1 : ℕ):ℚ)/100 from by
      push_cast; ring]
    rw [show (99 - k : ℕ) = 100 - (k+1) from by omega]
    refine ih (k+1) (75 - (k:ℚ)/100) (by omega) ?_
    rw [show (75 - ((k+1:ℕ):ℚ)/100) - (75 - (k:ℚ)/100) = -(1/100) from by
      push_cast; ring]
    norm_num [qabs, newtonTol]

/-- The counterexample run: the Newton iteration leaves the loop with
n_tries = 100 while the convergence criterion holds at exit. -/
theorem cexRun : helixCylinderRun cexSqrt cexHelix cexMask idTrf =
    .finished (148019/2000) (7401/100) 100 := by
  have hseed : newtonSeed cexSqrt cexHelix cexMask = 75 := by
    norm_num [newtonSeed, getterPerp, cexSqrt, cexHelix, cexStep, cexMask,
      newtonTol]
  unfold helixCylinderRun
  rw [hseed]
  simp only [idTrf, cexMask]
  have h0 := cexLoopRun 99 0 (75 - 1/10) (by omega)
    (by norm_num [qabs, newtonTol])
  simp only [Nat.cast_zero, zero_div, sub_zero, Nat.sub_zero] at h0
  simpa [maxNTries] using h0

/-!  Helper lemmas about the consistency checker. -/

/-- The find_portals observation holds exactly when some surface of the
surface collection is flagged as a portal. -/
theorem findPortals_iff (det : Detector) :
    findPortals det = true ↔ ∃ sf, sf ∈ det.surfaces ∧ sf.isPortal = true := by
  unfold findPortals Detector.portals
  cases hl : det.surfaces with
  | nil => simp
  | cons a l => simp [List.any_eq_true]

/-- A successful enumerated pass means every enumerated check passed. -/
theorem runChecks_ok {α : Type} (f : ℕ → α → Except Fault Unit) :
    ∀ (l : List (ℕ × α)), runChecks f l = .ok () →
      ∀ p, p ∈ l → f p.1 p.2 = .ok () := by
  intro l
  induction l with
  | nil => intro _ p hp; exact absurd hp (List.not_mem_nil p)
  | cons q rest ih =>
    intro hok p hp
    obtain ⟨i, a⟩ := q
    rw [List.mem_cons] at hp
    cases hfa : f i a with
    | error e =>
      simp only [runChecks, hfa] at hok
      exact Except.noConfusion hok
    | ok u =>
      cases u
      simp only [runChecks, hfa] at hok
      cases hp with
      | inl hpe => subst hpe; exact hfa
      | inr hpm => exact ih hok p hpm

/-- Every member of a list appears in its enumeration. -/
theorem mem_enumFrom {α : Type} (a : α) :
    ∀ (l : List α) (k : ℕ), a ∈ l → ∃ i, (i, a) ∈ enumFrom k l := by
  intro l
  induction l with
  | nil => intro k h; exact absurd h (List.not_mem_nil a)
  | cons b rest ih =>
    intro k h
    rw [List.mem_cons] at h
    cases h with
    | inl he => exact ⟨k, by rw [he]; simp [enumFrom]⟩
    | inr hm =>
      obtain ⟨i, hi⟩ := ih (k+1) hm
      exact ⟨i, by simp [enumFrom, hi]⟩

/-- A search that returns with success saw the searched surface (or was
seeded with success). -/
theorem searchSurfaces_ok_true (check : Surf) :
    ∀ (l : List Surf) (acc : Bool),
      searchSurfaces check l acc = .ok true → acc = true ∨ check ∈ l := by
  intro l
  induction l with
  | nil =>
    intro acc h
    simp only [searchSurfaces] at h
    injection h with h1
    exact Or.inl h1
  | cons ref rest ih =>
    intro acc h
    simp only [searchSurfaces] at h
    by_cases hv : ref.volume ≠ check.volume
    · rw [if_pos hv] at h
      exact Except.noConfusion h
    · rw [if_neg hv] at h
      cases ih (acc || (ref == check)) h with
      | inl hor =>
        simp only [Bool.or_eq_true, beq_iff_eq] at hor
        cases hor with
        | inl ha => exact Or.inl ha
        | inr he => subst he; exact Or.inr (List.mem_cons_self ref rest)
      | inr hm => exact Or.inr (List.mem_cons_of_mem ref hm)

/-- A search over correctly-owned surfaces that never meets the searched
surface returns its seed unchanged. -/
theorem searchSurfaces_not_mem (check : Surf) :
    ∀ (l : List Surf) (acc : Bool),
      (∀ ref, ref ∈ l → ref.volume = check.volume) → check ∉ l →
      searchSurfaces check l acc = .ok acc := by
  intro l
  induction l with
  | nil => intro acc _ _; rfl
  | cons ref rest ih =>
    intro acc hvol hnm
    simp only [searchSurfaces]
    rw [if_neg (not_not_intro (hvol ref (List.mem_cons_self ref rest)))]
    have hne : (ref == check) = false := by
      simp only [beq_eq_false_iff_ne, ne_eq]
      intro he
      exact hnm (by rw [← he]; exact List.mem_cons_self ref rest)
    rw [hne, Bool.or_false]
    exact ih acc (fun r hr => hvol r (List.mem_cons_of_mem ref hr))
      (fun hm => hnm (List.mem_cons_of_mem ref hm))

/-- The per-surface pass cannot succeed on a surface that is absent from
the acceleration data structures of its owning volume. -/
theorem surfacePass_orphan_not_ok (det : Detector) (idx : ℕ) (sf : Surf)
    (horph : sf ∉ (det.volumeAt sf.volume).allAccelSurfaces) :
    surfacePass det idx sf ≠ .ok () := by
  intro hok
  unfold surfacePass at hok
  by_cases h1 : (!sf.selfCheckOk) = true
  · rw [if_pos h1] at hok
    exact Except.noConfusion hok
  · rw [if_neg h1] at hok
    by_cases h2 : sf.index ≠ idx
    · rw [if_pos h2] at hok
      exact Except.noConfusion hok
    · rw [if_neg h2] at hok
      cases hs : searchSurfaces sf
          ((det.volumeAt sf.volume).allAccelSurfaces) false with
      | error e =>
        simp only [hs] at hok
        exact Except.noConfusion hok
      | ok b =>
        cases b with
        | false =>
          simp only [hs] at hok
          exact Except.noConfusion hok
        | true =>
          cases searchSurfaces_ok_true sf _ false hs with
          | inl hf => exact Bool.noConfusion hf
          | inr hm => exact horph hm

/-- A successful consistency check implies a successful per-surface
pass. -/
theorem check_consistency_ok_surfaces (det : Detector) (v : Bool) (b : Bool)
    (hok : check_consistency det v = .ok b) :
    runChecks (fun idx sf => surfacePass det idx sf)
      (enumFrom 0 det.surfaces) = .ok () := by
  unfold check_consistency at hok
  cases hce : check_empty det v with
  | error e =>
    simp only [hce] at hok
    exact Except.noConfusion hok
  | ok ws =>
    simp only [hce] at hok
    cases hrv : runChecks (fun idx vol => volumePass det idx vol)
        (enumFrom 0 det.volumes) with
    | error e =>
      simp only [hrv] at hok
      exact Except.noConfusion hok
    | ok u =>
      cases u
      simp only [hrv] at hok
      cases hrs : runChecks (fun idx sf => surfacePass det idx sf)
          (enumFrom 0 det.surfaces) with
      | error e =>
        simp only [hrs] at hok
        exact Except.noConfusion hok
      | ok u2 => cases u2; rfl

/-!  Claim theorems. -/

/-- Claim C1, amended: the intersector returns the absent (default) output
exactly on a zero-denominator abort or when the loop leaves with
n_tries = max_n_tries; slot 0 is populated from the converged s exactly
when the loop leaves with n_tries < max_n_tries, in which case the exit was
due to the convergence criterion.  Convergence first reached on the 100th
iteration still yields the absent output, because the code only tests
n_tries == max_n_tries after the loop. -/
theorem claim_C1_amended (sqrtFn : ℚ → ℚ) (h : HelixTraj)
    (mask : CylinderMask) (trf : Transform3) (mtol : ℚ) :
    (∀ s sp n, helixCylinderRun sqrtFn h mask trf = .finished s sp n →
      n < maxNTries →
      qabs (s - sp) ≤ newtonTol ∧
      helix_cylinder_intersector sqrtFn h mask trf mtol =
        (buildIntersection sqrtFn h mask trf mtol s, Intersection.invalid)) ∧
    (∀ s sp, helixCylinderRun sqrtFn h mask trf = .finished s sp maxNTries →
      helix_cylinder_intersector sqrtFn h mask trf mtol =
        (Intersection.invalid, Intersection.invalid)) ∧
    (helixCylinderRun sqrtFn h mask trf = .zeroDenom →
      helix_cylinder_intersector sqrtFn h mask trf mtol =
        (Intersection.invalid, Intersection.invalid)) := by
  refine ⟨?_, ?_, ?_⟩
  · intro s sp n hrun hn
    refine ⟨?_, intersector_finished_lt sqrtFn h mask trf mtol s sp n hrun
      (Nat.ne_of_lt hn)⟩
    exact newtonGo_finished_conv h trf.col3 trf.col2 mask.r maxNTries
      (newtonSeed sqrtFn h mask) (newtonSeed sqrtFn h mask - 1/10) 0
      s sp n (by omega) hrun hn
  · intro s sp hrun
    exact intersector_finished_max sqrtFn h mask trf mtol s sp hrun
  · intro hrun
    exact intersector_zeroDenom sqrtFn h mask trf mtol hrun

/-- Witness for the amended claim C1, at a run that converges after one
iteration. -/
theorem claim_C1_witness :
    qabs ((2:ℚ) - 2) ≤ newtonTol ∧
    helix_cylinder_intersector wSqrt wHelix wMask idTrf 0 =
      (buildIntersection wSqrt wHelix wMask idTrf 0 2, Intersection.invalid) :=
  (claim_C1_amended wSqrt wHelix wMask idTrf 0).1 2 2 1 wRun
    (by norm_num [maxNTries])

/-- Counterexample to claim C1 as stated: a run whose Newton iteration
stops with the convergence criterion satisfied (reached exactly on the
100th iteration), yet the output is the absent default pair and slot 0 is
not the intersection built from the converged s. -/
theorem claim_C1_counterexample :
    helixCylinderRun cexSqrt cexHelix cexMask idTrf =
      .finished (148019/2000) (7401/100) maxNTries ∧
    qabs ((148019/2000 : ℚ) - 7401/100) ≤ newtonTol ∧
    helix_cylinder_intersector cexSqrt cexHelix cexMask idTrf 0 =
      (Intersection.invalid, Intersection.invalid) ∧
    (helix_cylinder_intersector cexSqrt cexHelix cexMask idTrf 0).1 ≠
      buildIntersection cexSqrt cexHelix cexMask idTrf 0 (148019/2000) := by
  have hrun : helixCylinderRun cexSqrt cexHelix cexMask idTrf =
      .finished (148019/2000) (7401/100) maxNTries := by
    rw [cexRun]
    norm_num [maxNTries]
  have hout : helix_cylinder_intersector cexSqrt cexHelix cexMask idTrf 0 =
      (Intersection.invalid, Intersection.invalid) := by
    unfold helix_cylinder_intersector
    simp [hrun]
  refine ⟨hrun, by norm_num [qabs, newtonTol], hout, ?_⟩
  rw [hout]
  intro heq
  have hp3 := congrArg (fun r => r.p3.x) heq
  simp only [Intersection.invalid, buildIntersection, cexHelix,
    Vec3.zero] at hp3
  norm_num at hp3

/-- Claim C2: an exactly zero derivative denominator makes the loop abort
with the absent result before the update division; in particular a
trajectory exactly parallel to the cylinder axis and outside its radius
yields the absent output. -/
theorem claim_C2 :
    (∀ (h : HelixTraj) (sc sz : Vec3) (r : ℚ) (fuel : ℕ) (s sp : ℚ) (n : ℕ),
      qabs (s - sp) > newtonTol → n < maxNTries →
      newtonDenom h sc sz s = 0 →
      newtonGo h sc sz r (fuel + 1) s sp n = .zeroDenom) ∧
    (∀ (sqrtFn : ℚ → ℚ) (h : HelixTraj) (mask : CylinderMask)
      (trf : Transform3) (mtol : ℚ),
      helixCylinderRun sqrtFn h mask trf = .zeroDenom →
      helix_cylinder_intersector sqrtFn h mask trf mtol =
        (Intersection.invalid, Intersection.invalid)) ∧
    (∀ (sqrtFn : ℚ → ℚ) (h : HelixTraj) (mask : CylinderMask)
      (trf : Transform3) (mtol : ℚ),
      (∀ s, Vec3.cross (h.dir s) trf.col2 = Vec3.zero) →
      (∀ s, newtonF h trf.col3 trf.col2 mask.r s > 0) →
      helix_cylinder_intersector sqrtFn h mask trf mtol =
        (Intersection.invalid, Intersection.invalid)) := by
  refine ⟨?_, ?_, ?_⟩
  · intro h sc sz r fuel s sp n h1 h2 h3
    rw [newtonGo_succ, if_pos ⟨h1, h2⟩, if_pos h3]
  · intro sqrtFn h mask trf mtol hrun
    exact intersector_zeroDenom sqrtFn h mask trf mtol hrun
  · intro sqrtFn h mask trf mtol hpar _houtside
    exact intersector_zeroDenom sqrtFn h mask trf mtol
      (parallel_zeroDenom sqrtFn h mask trf hpar)

/-- Witness for claim C2, at a trajectory parallel to the z axis at
transverse distance 2 from a radius-1 cylinder around that axis. -/
theorem claim_C2_witness :
    helix_cylinder_intersector (fun _ => 0) parHelix cexMask idTrf 0 =
      (Intersection.invalid, Intersection.invalid) :=
  claim_C2.2.2 (fun _ => 0) parHelix cexMask idTrf 0
    (fun s => by norm_num [parHelix, idTrf, Vec3.cross, Vec3.zero])
    (fun s => by norm_num [newtonF, newtonCrp, parHelix, cexMask, idTrf,
      Vec3.cross, Vec3.sub, Vec3.dot])

/-- Claim C3: whenever the intersector populates slot 0, the path field of
the record equals the norm of its global point (its distance from the
global origin), the global point being the helix evaluated at the
converged parameter. -/
theorem claim_C3 (sqrtFn : ℚ → ℚ) (h : HelixTraj) (mask : CylinderMask)
    (trf : Transform3) (mtol : ℚ) (s sp : ℚ) (n : ℕ)
    (hrun : helixCylinderRun sqrtFn h mask trf = .finished s sp n)
    (hn : n ≠ maxNTries) :
    (helix_cylinder_intersector sqrtFn h mask trf mtol).1.path =
      getterNorm sqrtFn
        (helix_cylinder_intersector sqrtFn h mask trf mtol).1.p3 ∧
    (helix_cylinder_intersector sqrtFn h mask trf mtol).1.p3 = h.pos s := by
  rw [intersector_finished_lt sqrtFn h mask trf mtol s sp n hrun hn]
  exact ⟨rfl, rfl⟩

/-- Witness for claim C3 at the one-iteration converging run. -/
theorem claim_C3_witness :
    (helix_cylinder_intersector wSqrt wHelix wMask idTrf 0).1.path =
      getterNorm wSqrt
        (helix_cylinder_intersector wSqrt wHelix wMask idTrf 0).1.p3 ∧
    (helix_cylinder_intersector wSqrt wHelix wMask idTrf 0).1.p3 =
      wHelix.pos 2 :=
  claim_C3 wSqrt wHelix wMask idTrf 0 2 2 1 wRun (by norm_num [maxNTries])

/-- Claim C4: for the cartesian2 frame, the global-to-local conversion of
the local-to-global image of a local point is that point, for every
transform whose point_to_local inverts its point_to_global. -/
theorem claim_C4 (trf : Transform3)
    (hinv : ∀ p, trf.pointToLocal (trf.pointToGlobal p) = p)
    {μ : Type} (mask : μ) (p : Vec2) (d : Vec3) :
    cartesian2_global_to_local trf
      (cartesian2_local_to_global trf mask p d) d = p := by
  obtain ⟨px, py⟩ := p
  unfold cartesian2_global_to_local cartesian2_local_to_global
  rw [hinv]
  rfl

/-- Witness for claim C4 at the identity placement. -/
theorem claim_C4_witness :
    cartesian2_global_to_local idTrf
      (cartesian2_local_to_global idTrf (0:ℕ) ⟨1, 2⟩ ⟨0, 0, 1⟩) ⟨0, 0, 1⟩ =
      ⟨1, 2⟩ :=
  claim_C4 idTrf (fun _ => rfl) (0:ℕ) ⟨1, 2⟩ ⟨0, 0, 1⟩

/-- Claim C5, amended: check_empty faults with the no-portals diagnostic
exactly when the earlier presence checks (volumes, surfaces, transforms,
masks) pass and no surface of the surface collection is flagged as a
portal; whenever some surface is a portal, the portal check passes. -/
theorem claim_C5_amended (det : Detector) (v : Bool) :
    (check_empty det v = .error Fault.noPortals ↔
      det.volumes.isEmpty = false ∧ det.surfaces.isEmpty = false ∧
      det.transformStoreEmpty = false ∧ maskStoreAllEmpty det = false ∧
      findPortals det = false) ∧
    (findPortals det = true ↔
      ∃ sf, sf ∈ det.surfaces ∧ sf.isPortal = true) := by
  constructor
  · unfold check_empty
    split_ifs with h1 h2 h3 h4 h5 <;> simp_all
  · exact findPortals_iff det

/-- Witness for the amended claim C5: the portal check passes on the
minimal detector, whose only surface is a portal. -/
theorem claim_C5_witness : findPortals goodDet = true :=
  (claim_C5_amended goodDet false).2.mpr ⟨goodSurf, by decide, rfl⟩

/-- Counterexample to claim C5 as stated: a detector without any portal
surface on which check_empty does not fault with the no-portals diagnostic
(the earlier no-volumes check preempts it). -/
theorem claim_C5_counterexample :
    (∀ sf, sf ∈ cexDet5.surfaces → sf.isPortal = false) ∧
    check_empty cexDet5 false = .error Fault.noVolumes ∧
    check_empty cexDet5 false ≠ .error Fault.noPortals := by
  refine ⟨by decide, by rfl, ?_⟩
  rw [show check_empty cexDet5 false = .error Fault.noVolumes from rfl]
  simp

/-- Claim C6, amended: a surface of the flat lookup absent from every
acceleration data structure of its owning volume makes check_consistency
fault; the per-surface pass over that surface produces the fault naming
that surface, provided its self check and index check pass and every
surface of the owning volume carries the correct volume index (an earlier
fault may otherwise preempt with a different diagnostic). -/
theorem claim_C6_amended :
    (∀ (det : Detector) (v : Bool) (sf : Surf),
      sf ∈ det.surfaces →
      sf ∉ (det.volumeAt sf.volume).allAccelSurfaces →
      ∃ e, check_consistency det v = .error e) ∧
    (∀ (det : Detector) (idx : ℕ) (sf : Surf),
      sf.selfCheckOk = true → sf.index = idx →
      (∀ ref, ref ∈ (det.volumeAt sf.volume).allAccelSurfaces →
        ref.volume = sf.volume) →
      sf ∉ (det.volumeAt sf.volume).allAccelSurfaces →
      surfacePass det idx sf = .error (Fault.notRegistered sf)) := by
  constructor
  · intro det v sf hmem horph
    cases hcc : check_consistency det v with
    | error e => exact ⟨e, rfl⟩
    | ok b =>
      exfalso
      obtain ⟨i, hi⟩ := mem_enumFrom sf det.surfaces 0 hmem
      exact surfacePass_orphan_not_ok det i sf horph
        (runChecks_ok _ _ (check_consistency_ok_surfaces det v b hcc)
          (i, sf) hi)
  · intro det idx sf hself hidx hvol horph
    unfold surfacePass
    rw [if_neg (by simp [hself]), if_neg (by simp [hidx])]
    rw [searchSurfaces_not_mem sf _ false hvol horph]

/-- Witness for the amended claim C6, at a detector whose only defect is
one orphaned surface. -/
theorem claim_C6_witness :
    (∃ e, check_consistency orphDet false = .error e) ∧
    surfacePass orphDet 0 orphSf = .error (Fault.notRegistered orphSf) :=
  ⟨claim_C6_amended.1 orphDet false orphSf (by decide) (by decide),
   claim_C6_amended.2 orphDet 0 orphSf (by decide) (by decide) (by decide)
     (by decide)⟩

/-- Counterexample to claim C6 as stated: a detector holding an orphaned
surface on which check_consistency raises a fault whose diagnostic does not
identify that surface (the self check of the owning volume faults
first). -/
theorem claim_C6_counterexample :
    cexSf6 ∈ cexDet6.surfaces ∧
    cexSf6 ∉ (cexDet6.volumeAt cexSf6.volume).allAccelSurfaces ∧
    check_consistency cexDet6 false = .error (Fault.volumeSelfCheck 0) ∧
    Fault.mentionsSurf (Fault.volumeSelfCheck 0) cexSf6 = false := by
  exact ⟨by decide, by decide, by rfl, by rfl⟩

/-- Claim C7: slot 1 of the two-slot output is never written; it equals the
default (invalid) record whatever the inputs. -/
theorem claim_C7 (sqrtFn : ℚ → ℚ) (h : HelixTraj) (mask : CylinderMask)
    (trf : Transform3) (mtol : ℚ) :
    (helix_cylinder_intersector sqrtFn h mask trf mtol).2 =
      Intersection.invalid := by
  cases hr : helixCylinderRun sqrtFn h mask trf with
  | zeroDenom =>
    unfold helix_cylinder_intersector
    simp only [hr]
  | finished s sp n =>
    unfold helix_cylinder_intersector
    simp only [hr]
    by_cases hn : n = maxNTries
    · rw [if_pos hn]
    · rw [if_neg hn]

/-- Witness for claim C7 at the one-iteration converging run. -/
theorem claim_C7_witness :
    (helix_cylinder_intersector wSqrt wHelix wMask idTrf 0).2 =
      Intersection.invalid :=
  claim_C7 wSqrt wHelix wMask idTrf 0

/-- Claim C8: an empty volumes collection makes check_empty, and with it
check_consistency, fault with the no-volumes diagnostic regardless of every
other field of the detector (so before any per-volume or per-surface
check). -/
theorem claim_C8 (det : Detector) (v : Bool) (hvol : det.volumes = []) :
    check_empty det v = .error Fault.noVolumes ∧
    check_consistency det v = .error Fault.noVolumes := by
  have he : check_empty det v = .error Fault.noVolumes := by
    unfold check_empty
    rw [hvol]
    simp
  refine ⟨he, ?_⟩
  unfold check_consistency
  simp only [he]

/-- Witness for claim C8, at a detector with surfaces but no volumes (and
an empty transform store, showing the no-volumes fault takes priority). -/
theorem claim_C8_witness :
    check_empty emptyVolDet false = .error Fault.noVolumes ∧
    check_consistency emptyVolDet false = .error Fault.noVolumes :=
  claim_C8 emptyVolDet false rfl

/-- Claim C9: for every detector passing the fatal structural presence
checks, an entirely empty material store yields a successful check_empty
whose warnings contain the no-material warning; a minimal detector with an
entirely empty material store passes check_consistency with true. -/
theorem claim_C9 :
    (∀ (det : Detector) (v : Bool), passesStructural det →
      materialStoreAllEmpty det = true →
      ∃ ws, check_empty det v = .ok ws ∧ Warning.noMaterial ∈ ws) ∧
    materialStoreAllEmpty goodDet = true ∧
    check_consistency goodDet false = .ok true := by
  refine ⟨?_, by rfl, by rfl⟩
  intro det v hps hmat
  obtain ⟨h1, h2, h3, h4, h5⟩ := hps
  refine ⟨checkEmptyWarnings det v, ?_, ?_⟩
  · unfold check_empty
    rw [if_neg (by simp [h1]), if_neg (by simp [h2]), if_neg (by simp [h3]),
      if_neg (by simp [h4]), if_neg (by simp [h5])]
  · simp [checkEmptyWarnings, hmat]

/-- Witness for claim C9, at the minimal consistent detector with an empty
material store. -/
theorem claim_C9_witness :
    ∃ ws, check_empty goodDet false = .ok ws ∧ Warning.noMaterial ∈ ws :=
  claim_C9.1 goodDet false ⟨rfl, rfl, rfl, rfl, rfl⟩ rfl

/-- Claim C10: the io type-id lookup is total: every registered shape
(resp. grid frame) type maps to its registry id and every unregistered one
to the unknown id; in particular the sample registered types map to their
enumeration entries and the unregistered ones to unknown. -/
theorem claim_C10 :
    (∀ (t : ShapeType) (i : ℕ),
      shape_type_registry.findIdx? (fun x => x == t) = some i →
      get_shape_id t = shapeIdOf i) ∧
    (∀ t : ShapeType,
      shape_type_registry.findIdx? (fun x => x == t) = none →
      get_shape_id t = ShapeId.unknown) ∧
    (∀ (t : FrameType) (i : ℕ),
      grid_frame_registry.findIdx? (fun x => x == some t) = some i →
      get_accel_id t = accelIdOf i) ∧
    (∀ t : FrameType,
      grid_frame_registry.findIdx? (fun x => x == some t) = none →
      get_accel_id t = AccelId.unknown) ∧
    get_shape_id ShapeType.unmasked = ShapeId.unknown ∧
    get_accel_id FrameType.line2 = AccelId.unknown ∧
    get_shape_id ShapeType.rectangle2D = ShapeId.rectangle2 ∧
    get_accel_id FrameType.polar2 = AccelId.polar2_grid := by
  refine ⟨?_, ?_, ?_, ?_, by rfl, by rfl, by rfl, by rfl⟩
  · intro t i hidx
    unfold get_shape_id
    rw [hidx]
  · intro t hidx
    unfold get_shape_id
    rw [hidx]
  · intro t i hidx
    unfold get_accel_id
    rw [hidx]
  · intro t hidx
    unfold get_accel_id
    rw [hidx]

/-- Witness for claim C10 at a registered shape and a registered grid
frame. -/
theorem claim_C10_witness :
    get_shape_id ShapeType.cylinder2D = shapeIdOf 2 ∧
    get_accel_id FrameType.polar2 = accelIdOf 3 :=
  ⟨claim_C10.1 ShapeType.cylinder2D 2 (by decide),
   claim_C10.2.2.1 FrameType.polar2 3 (by decide)⟩

end Detray
